import Mathlib

set_option maxHeartbeats 1000000

/-!
Shallow embedding of the pewpewSetup acquisition/motion-control layer.

Oscilloscope side (src/pewpewSetup/hardware/InfiniiumOscilloscope.py): the
error-queue draining loop, command dispatch, setup save/load, preamble
parsing, waveform calibration, and the command sequence issued by
single_acquisition.

Stage side (src/pewpewSetup/devices/PIStage.py): the MMC wrapper is modelled
as a scripted device whose successive getPos replies are given by a fixed
trace (a reply of none models a transport call that raises an exception,
caught by the corresponding except branch in the source), and each method is
translated with its try/except structure made explicit.  Loops are given a
fuel parameter; a result of none at the outer Option layer means the loop did
not finish within the given fuel.
-/

/-- Sentinel test from InfiniiumOscilloscope.check_instrument_errors
(line 92): a reply to the :SYSTem:ERRor? query counts as the no-error
sentinel exactly when it starts with "+0,", that is, when its first three
characters are '+', '0', ','.  (The startswith test of the source is stated
on the character list so that it evaluates by computation.) -/
def isNoErrorReply (s : String) : Bool :=
  decide (s.data.take 3 = ['+', '0', ','])

/-- Embedding of InfiniiumOscilloscope.check_instrument_errors (lines 89-98).
The scripted error queue is the list of successive replies to the database
query :SYSTem:ERRor? STRing.  The loop surfaces every reply until the first
no-error sentinel, consumes the sentinel, and leaves the rest of the queue
untouched.  An empty queue models a query that raises: the except branch
reports nothing further and breaks.  Returns (reported entries, remaining
queue). -/
def check_instrument_errors : List String → List String × List String
  | [] => ([], [])
  | e :: rest =>
    if isNoErrorReply e then ([], rest)
    else
      let r := check_instrument_errors rest
      (e :: r.1, r.2)

/-- State of the scripted oscilloscope transport: commands written so far and
the pending error-queue replies. -/
structure ScopeState where
  written : List String
  errQueue : List String
deriving DecidableEq

/-- Embedding of InfiniiumOscilloscope.do_command (lines 100-113): write the
command, then drain the error queue via check_instrument_errors.  Returns the
new state and the list of surfaced error entries. -/
def do_command (st : ScopeState) (command : String) : ScopeState × List String :=
  let r := check_instrument_errors st.errQueue
  ({ written := st.written ++ [command], errQueue := r.2 }, r.1)

/-- Embedding of InfiniiumOscilloscope.save_setup (lines 228-236): the bytes
returned by the :SYSTem:SETup? query are written verbatim to the named file.
The filesystem is a map from paths to byte lists. -/
def save_setup (fs : String → Option (List ℕ)) (setup_name : String)
    (setup_bytes : List ℕ) : String → Option (List ℕ) :=
  fun p => if p = setup_name then some setup_bytes else fs p

/-- Embedding of InfiniiumOscilloscope.load_setup (lines 238-250): read the
named file and send its bytes as the binary payload of the :SYSTem:SETup
command.  Returns the command and payload sent to the instrument, or none
when the file cannot be read (the except branch sends nothing). -/
def load_setup (fs : String → Option (List ℕ)) (setup_name : String) :
    Option (String × List ℕ) :=
  match fs setup_name with
  | none => none
  | some setup_bytes => some (":SYSTem:SETup", setup_bytes)

/-- Embedding of struct.unpack("%db" % len(sData), sData) in get_waveform
(line 469): each raw byte is decoded as a signed 8-bit sample. -/
def structUnpackSigned (sData : List ℕ) : List Int :=
  sData.map (fun (b : ℕ) => if b < 128 then (b : Int) else (b : Int) - 256)

/-- Embedding of the calibration loop of get_waveform (lines 475-478): row i
is (x_origin + i * x_increment, values[i] * y_increment + y_origin) where
values is the signed-sample list obtained from the raw bytes. -/
def get_waveform_rows (sData : List ℕ)
    (x_origin x_increment y_origin y_increment : ℚ) : List (ℚ × ℚ) :=
  let values := structUnpackSigned sData
  (List.range values.length).map (fun (i : ℕ) =>
    (x_origin + (i : ℚ) * x_increment,
     ((values.getD i 0 : Int) : ℚ) * y_increment + y_origin))

/-- Transcription of wav_form_dict (lines 23-29). -/
def wav_form_dict : List (Int × String) :=
  [(0, "ASCii"), (1, "BYTE"), (2, "WORD"), (3, "LONG"), (4, "LONGLONG")]

/-- Transcription of acq_type_dict (lines 30-37). -/
def acq_type_dict : List (Int × String) :=
  [(1, "RAW"), (2, "AVERage"), (3, "VHIStogram"), (4, "HHIStogram"),
   (6, "INTerpolate"), (10, "PDETect")]

/-- Transcription of acq_mode_dict (lines 38-42). -/
def acq_mode_dict : List (Int × String) :=
  [(0, "RTIMe"), (1, "ETIMe"), (3, "PDETect")]

/-- Transcription of coupling_dict (lines 43-48). -/
def coupling_dict : List (Int × String) :=
  [(0, "AC"), (1, "DC"), (2, "DCFIFTY"), (3, "LFREJECT")]

/-- Transcription of units_dict (lines 49-56). -/
def units_dict : List (Int × String) :=
  [(0, "UNKNOWN"), (1, "VOLT"), (2, "SECOND"), (3, "CONSTANT"),
   (4, "AMP"), (5, "DECIBEL")]

/-- Decimal digit-string reading used to model the int(...) conversions of
get_preamble: a nonempty all-digit character list denotes a natural number,
anything else raises ValueError (none). -/
def digitsToNat (cs : List Char) : Option ℕ :=
  if cs ≠ [] ∧ cs.all Char.isDigit then
    some (cs.foldl (fun n c => n * 10 + (c.toNat - '0'.toNat)) 0)
  else none

/-- Model of the Python int(field) conversion: an optional leading minus sign
followed by decimal digits.  (Python also strips surrounding whitespace and
accepts a plus sign; preamble fields carry neither.) -/
def strToInt (s : String) : Option Int :=
  match s.data with
  | '-' :: cs => (digitsToNat cs).map fun n => -(n : Int)
  | cs => (digitsToNat cs).map fun n => (n : Int)

/-- Embedding of the combination int(field) followed by a dictionary lookup,
as performed by get_preamble on each enum field: a non-integer field or a
code outside the dictionary raises, which the embedding reports as none. -/
def parse_enum (d : List (Int × String)) (s : String) : Option String :=
  (strToInt s).bind fun code => d.lookup code

/-- Result of a successful preamble parse: the 24 comma-separated fields, the
six enum-coded fields replaced by their decoded symbolic names, exactly as
get_preamble prints and returns them. -/
structure Preamble where
  wav_form : String
  acq_type : String
  wfmpts : String
  avgcnt : String
  x_increment : String
  x_origin : String
  x_reference : String
  y_increment : String
  y_origin : String
  y_reference : String
  coupling : String
  x_display_range : String
  x_display_origin : String
  y_display_range : String
  y_display_origin : String
  date : String
  time : String
  frame_model : String
  acq_mode : String
  completion : String
  x_units : String
  y_units : String
  max_bw_limit : String
  min_bw_limit : String
deriving DecidableEq

/-- Enum decoding of the 24 unpacked preamble fields of
InfiniiumOscilloscope.get_preamble (lines 395-415): each enum field is
decoded through its dictionary in the order the source prints them
(wav_form, acq_type, coupling, acq_mode, x_units, y_units); any decode
failure raises, which the except branch surfaces as none. -/
def decode_preamble (wav_form acq_type wfmpts avgcnt x_increment x_origin
    x_reference y_increment y_origin y_reference coupling x_display_range
    x_display_origin y_display_range y_display_origin date time frame_model
    acq_mode completion x_units y_units max_bw_limit min_bw_limit : String) :
    Option Preamble :=
    (parse_enum wav_form_dict wav_form).bind fun wfName =>
    (parse_enum acq_type_dict acq_type).bind fun atName =>
    (parse_enum coupling_dict coupling).bind fun cpName =>
    (parse_enum acq_mode_dict acq_mode).bind fun amName =>
    (parse_enum units_dict x_units).bind fun xuName =>
    (parse_enum units_dict y_units).bind fun yuName =>
    some { wav_form := wfName, acq_type := atName, wfmpts := wfmpts,
           avgcnt := avgcnt, x_increment := x_increment, x_origin := x_origin,
           x_reference := x_reference, y_increment := y_increment,
           y_origin := y_origin, y_reference := y_reference,
           coupling := cpName, x_display_range := x_display_range,
           x_display_origin := x_display_origin,
           y_display_range := y_display_range,
           y_display_origin := y_display_origin, date := date, time := time,
           frame_model := frame_model, acq_mode := amName,
           completion := completion, x_units := xuName, y_units := yuName,
           max_bw_limit := max_bw_limit, min_bw_limit := min_bw_limit }

/-- Dispatch of the comma-split field list into the 24-name tuple unpacking
of get_preamble (line 395-397): any other field count raises ValueError,
which the except branch surfaces as none. -/
def get_preamble_fields : List String → Option Preamble
  | [wav_form, acq_type, wfmpts, avgcnt, x_increment, x_origin, x_reference,
     y_increment, y_origin, y_reference, coupling, x_display_range,
     x_display_origin, y_display_range, y_display_origin, date, time,
     frame_model, acq_mode, completion, x_units, y_units, max_bw_limit,
     min_bw_limit] =>
    decode_preamble wav_form acq_type wfmpts avgcnt x_increment x_origin
      x_reference y_increment y_origin y_reference coupling x_display_range
      x_display_origin y_display_range y_display_origin date time frame_model
      acq_mode completion x_units y_units max_bw_limit min_bw_limit
  | _ => none

/-- Embedding of get_preamble on a raw preamble string: split on commas
(line 397) and parse the fields. -/
def get_preamble (preamble_string : String) : Option Preamble :=
  get_preamble_fields (preamble_string.splitOn ",")

/-- Scripted model of the vendor MMC_Wrapper used by
src/pewpewSetup/devices/PIStage.py.  The field trace gives the replies of the
successive getPos calls: trace n is the reply to the n-th call, and a reply
of none models a transport call that raises.  The remaining fields record the
commands the stage code issues to the wrapper. -/
structure MMC_Wrapper where
  trace : ℕ → Option ℚ
  k : ℕ
  moveCmds : List (ℤ × ℚ)
  rawCmds : List String
  homeSought : Bool
  stopped : Bool
  comClosed : Bool

/-- One wrapper.getPos() call: reply of the scripted trace at the current
index, and advance the index. -/
def MMC_Wrapper.getPos (w : MMC_Wrapper) : Option ℚ × MMC_Wrapper :=
  (w.trace w.k, { w with k := w.k + 1 })

/-- One wrapper.moveAbs(axis, target) call: record the commanded absolute
target for the given axis. -/
def MMC_Wrapper.moveAbs (w : MMC_Wrapper) (axis : ℤ) (target : ℚ) :
    MMC_Wrapper :=
  { w with moveCmds := w.moveCmds ++ [(axis, target)] }

/-- One wrapper.find_home() call. -/
def MMC_Wrapper.find_home (w : MMC_Wrapper) : MMC_Wrapper :=
  { w with homeSought := true }

/-- One wrapper.MMC_sendCommand(c) call. -/
def MMC_Wrapper.sendRawCommand (w : MMC_Wrapper) (c : String) : MMC_Wrapper :=
  { w with rawCmds := w.rawCmds ++ [c] }

/-- State of a PIStage object from src/pewpewSetup/devices/PIStage.py: ready
is false when self.wrapper is None (initialization failed), bounds mirrors
the two-element bounds list, and axis is the selected device. -/
structure PIStage where
  ready : Bool
  bounds : ℚ × ℚ
  axis : ℤ
  wrapper : MMC_Wrapper

/-- Embedding of PIStage.is_moving (lines 151-178): if the stage is not
ready return False; otherwise sample the position twice and report movement
when the absolute delta exceeds the threshold.  A getPos that raises is
caught by the except branch, which returns False. -/
def PIStage.is_moving (s : PIStage) (threshold : ℚ) : Bool × PIStage :=
  if s.ready = false then (false, s)
  else
    match s.wrapper.getPos with
    | (none, w1) => (false, { s with wrapper := w1 })
    | (some initial_pos, w1) =>
      match w1.getPos with
      | (none, w2) => (false, { s with wrapper := w2 })
      | (some final_pos, w2) =>
        (decide (|final_pos - initial_pos| > threshold),
         { s with wrapper := w2 })

/-- Default threshold of PIStage.is_moving (line 151). -/
def default_threshold : ℚ := 1 / 10000

/-- Embedding of the settle-polling loop shared by PIStage.move
(lines 142-143) and PIStage.move_home (lines 90-91): repeatedly call
is_moving() with the default threshold until it returns False.  The source
loop has no timeout; the fuel argument only bounds the unrolling of the
embedding, and a result of none means the loop was still running when the
fuel ran out. -/
def settle_loop : ℕ → PIStage → Option PIStage
  | 0, _ => none
  | fuel + 1, s =>
    let r := s.is_moving default_threshold
    if r.1 then settle_loop fuel r.2 else some r.2

/-- Embedding of PIStage.move (lines 122-149): read the current position,
clamp current + position into the bounds, command an absolute move to the
clamped target, poll until settled, and return the final getPos reading.
The except branch catches a raising getPos and returns None (modelled as
the inner none); the outer none means the settle loop ran out of fuel. -/
def PIStage.move (s : PIStage) (position : ℚ) (fuel : ℕ) :
    Option (Option ℚ × PIStage) :=
  if s.ready = false then some (none, s)
  else
    match s.wrapper.getPos with
    | (none, w1) => some (none, { s with wrapper := w1 })
    | (some current_position, w1) =>
      let target_position :=
        max (min (current_position + position) s.bounds.2) s.bounds.1
      let w2 := w1.moveAbs s.axis target_position
      match settle_loop fuel { s with wrapper := w2 } with
      | none => none
      | some s1 =>
        match s1.wrapper.getPos with
        | (none, w3) => some (none, { s1 with wrapper := w3 })
        | (some pos, w3) => some (some pos, { s1 with wrapper := w3 })

/-- Embedding of PIStage.move_home (lines 78-98): issue find_home, poll
until settled, send the raw DH command, and read the final position.  Every
raise is caught by the except branch and the method returns normally; the
outer none again means the settle loop ran out of fuel. -/
def PIStage.move_home (s : PIStage) (fuel : ℕ) : Option PIStage :=
  if s.ready = false then some s
  else
    let w1 := s.wrapper.find_home
    match settle_loop fuel { s with wrapper := w1 } with
    | none => none
    | some s1 =>
      let w2 := s1.wrapper.sendRawCommand "DH"
      match w2.getPos with
      | (none, w3) => some { s1 with wrapper := w3 }
      | (some _, w3) => some { s1 with wrapper := w3 }

/-- Embedding of PIStage.stop_motion (lines 111-120): issue
MMC_globalBreak; if the call raises (breakRaises), the except branch catches
and the method still returns, leaving the state unchanged. -/
def PIStage.stop_motion (s : PIStage) (breakRaises : Bool) : PIStage :=
  if s.ready = false then s
  else if breakRaises then s
  else { s with wrapper := { s.wrapper with stopped := true } }

/-- Embedding of PIStage.close (lines 100-109): issue MMC_COM_close; if the
call raises (closeRaises), the except branch catches and the method still
returns, leaving the state unchanged. -/
def PIStage.close (s : PIStage) (closeRaises : Bool) : PIStage :=
  if s.ready = false then s
  else if closeRaises then s
  else { s with wrapper := { s.wrapper with comClosed := true } }

/-- Ready stage over a scripted getPos trace, with the default bounds [0, 25]
of PIStage and axis 1, used to evaluate the stage theorems on concrete
scripts. -/
def scriptedStage (tr : ℕ → Option ℚ) : PIStage :=
  { ready := true, bounds := (0, 25), axis := 1,
    wrapper := { trace := tr, k := 0, moveCmds := [], rawCmds := [],
                 homeSought := false, stopped := false, comClosed := false } }

/-- Alphabet of SCPI interactions issued by
InfiniiumOscilloscope.single_acquisition and set_setup, one constructor per
command or read-back query in the source, carrying the parameters the source
interpolates into the command string. -/
inductive ScopeAction where
  | setProbe (channel : String)
  | queryProbe (channel : String)
  | autoscaleCmd
  | setTrigMode (mode : String)
  | queryTrigMode
  | setTrigEdgeSource (channel : String)
  | queryTrigEdgeSource
  | setTrigLevel (channel level : String)
  | queryTrigLevel (channel : String)
  | setTrigEdgeSlope (slope : String)
  | queryTrigEdgeSlope
  | saveSetupFile (setup_name : String)
  | loadSetupFile (setup_name : String)
  | setChanScale (channel : String) (v : ℚ)
  | queryChanScale (channel : String)
  | setChanOffset (channel : String) (v : ℚ)
  | queryChanOffset (channel : String)
  | setTimeScale (v : String)
  | queryTimeScale
  | setTimePosition (v : ℚ)
  | queryTimePosition
  | setAcqMode (m : String)
  | queryAcqMode
  | setAcqPoints (n : ℕ)
  | digitizeCmd
deriving DecidableEq

/-- Embedding of InfiniiumOscilloscope.set_setup (lines 194-226): the manual
per-channel, timebase and acquire-mode configuration, each command followed
by its read-back query, in source order. -/
def set_setup_actions (channel : String) (scale offset : ℚ)
    (time_scale : String) (time_position : ℚ) (acquire_mode : String) :
    List ScopeAction :=
  [ScopeAction.setChanScale channel scale, ScopeAction.queryChanScale channel,
   ScopeAction.setChanOffset channel offset,
   ScopeAction.queryChanOffset channel,
   ScopeAction.setTimeScale time_scale, ScopeAction.queryTimeScale,
   ScopeAction.setTimePosition time_position, ScopeAction.queryTimePosition,
   ScopeAction.setAcqMode acquire_mode, ScopeAction.queryAcqMode]

/-- Embedding of InfiniiumOscilloscope.single_acquisition (lines 252-329) as
the sequence of SCPI interactions it issues: probe setting, optional
autoscale, trigger mode, the EDGE-only trigger parameters (source, level,
and the hardcoded POSitive slope of line 308), optional setup save, optional
setup load, the manual set_setup configuration performed exactly when
load_setup is false, then the waveform point count and the final single-shot
digitize command. -/
def single_acquisition_actions (channel : String) (autoscale : Bool)
    (trigger_mode trigger_level : String) (saveSetupFlag loadSetupFlag : Bool)
    (setup_name : String) (scale offset : ℚ) (time_scale : String)
    (time_position : ℚ) (acquire_mode : String) (waveform_points : ℕ) :
    List ScopeAction :=
  [ScopeAction.setProbe channel, ScopeAction.queryProbe channel]
  ++ (if autoscale then [ScopeAction.autoscaleCmd] else [])
  ++ [ScopeAction.setTrigMode trigger_mode, ScopeAction.queryTrigMode]
  ++ (if trigger_mode = "EDGE" then
        [ScopeAction.setTrigEdgeSource channel,
         ScopeAction.queryTrigEdgeSource,
         ScopeAction.setTrigLevel channel trigger_level,
         ScopeAction.queryTrigLevel channel,
         ScopeAction.setTrigEdgeSlope "POSitive",
         ScopeAction.queryTrigEdgeSlope]
      else [])
  ++ (if saveSetupFlag then [ScopeAction.saveSetupFile setup_name] else [])
  ++ (if loadSetupFlag then [ScopeAction.loadSetupFile setup_name] else [])
  ++ (if loadSetupFlag then []
      else set_setup_actions channel scale offset time_scale time_position
             acquire_mode)
  ++ [ScopeAction.setAcqPoints waveform_points, ScopeAction.digitizeCmd]

/-- Helper for the draining loop: on a queue made of non-sentinel entries
followed by a sentinel, check_instrument_errors reports exactly the
non-sentinel prefix and stops right after the sentinel. -/
theorem check_instrument_errors_drain (errs : List String) (s0 : String)
    (rest : List String) (herrs : ∀ e ∈ errs, isNoErrorReply e = false)
    (hs : isNoErrorReply s0 = true) :
    check_instrument_errors (errs ++ s0 :: rest) = (errs, rest) := by
  induction errs with
  | nil => simp [check_instrument_errors, hs]
  | cons e es ih =>
    have he : isNoErrorReply e = false := herrs e (List.mem_cons_self e es)
    have ih' := ih fun x hx => herrs x (List.mem_cons_of_mem e hx)
    simp [check_instrument_errors, he, ih']

/-- C1: when the scripted error queue is a finite run of non-sentinel
entries followed by a no-error sentinel, do_command writes the command, then
drains the queue: it surfaces every non-sentinel entry in order and stops
exactly at the first sentinel, consuming it and nothing beyond it. -/
theorem do_command_drains_to_first_sentinel (st : ScopeState) (cmd : String)
    (errs : List String) (s0 : String) (rest : List String)
    (herrs : ∀ e ∈ errs, isNoErrorReply e = false)
    (hs : isNoErrorReply s0 = true) (hq : st.errQueue = errs ++ s0 :: rest) :
    do_command st cmd =
      ({ written := st.written ++ [cmd], errQueue := rest }, errs) := by
  simp [do_command, hq, check_instrument_errors_drain errs s0 rest herrs hs]

/-- Evaluation of the C1 theorem on a concrete script: two instrument errors
followed by the no-error sentinel and a stale later entry. -/
theorem do_command_drains_to_first_sentinel_witness :
    do_command { written := [], errQueue :=
        ["-113,Undefined header", "-222,Data out of range",
         "+0,No error", "-999,stale"] } ":AUToscale" =
      ({ written := [":AUToscale"], errQueue := ["-999,stale"] },
       ["-113,Undefined header", "-222,Data out of range"]) := by
  exact do_command_drains_to_first_sentinel _ ":AUToscale"
    ["-113,Undefined header", "-222,Data out of range"] "+0,No error"
    ["-999,stale"]
    (by decide) (by decide) rfl

/-- C6: loading the setup file just written by save_setup sends the very
bytes that the instrument returned, as the binary payload of the
setup-restore command: a byte-identical round-trip. -/
theorem setup_round_trip (fs : String → Option (List ℕ)) (setup_name : String)
    (setup_bytes : List ℕ) :
    load_setup (save_setup fs setup_name setup_bytes) setup_name =
      some (":SYSTem:SETup", setup_bytes) := by
  simp [load_setup, save_setup]

/-- C3: for every raw byte sequence and calibration values, the waveform
rows produced by get_waveform have exactly one (time, voltage) pair per raw
sample, with time i equal to x_origin + i * x_increment and voltage i equal
to the signed sample value times y_increment plus y_origin. -/
theorem get_waveform_rows_calibration (sData : List ℕ)
    (x_origin x_increment y_origin y_increment : ℚ) :
    (get_waveform_rows sData x_origin x_increment y_origin
        y_increment).length = sData.length
    ∧ ∀ i : ℕ, i < sData.length →
        (get_waveform_rows sData x_origin x_increment y_origin
            y_increment).get? i
          = some (x_origin + (i : ℚ) * x_increment,
              (((structUnpackSigned sData).getD i 0 : Int) : ℚ) * y_increment
                + y_origin) := by
  have hlen : (structUnpackSigned sData).length = sData.length := by
    simp only [structUnpackSigned, List.length_map]
  constructor
  · simp only [get_waveform_rows, List.length_map, List.length_range, hlen]
  · intro i hi
    simp [get_waveform_rows, List.getElem?_map, List.getElem?_range, hlen, hi,
      List.get?_eq_getElem?]

/-- Evaluation of the C3 theorem on the one-sample waveform with raw byte
200, which decodes to the signed sample -56. -/
theorem get_waveform_rows_calibration_witness :
    (get_waveform_rows [200] 0 1 0 1).length = 1
    ∧ (get_waveform_rows [200] 0 1 0 1).get? 0
        = some (0 + (0 : ℚ) * 1,
            (((structUnpackSigned [200]).getD 0 0 : Int) : ℚ) * 1 + 0) := by
  exact ⟨(get_waveform_rows_calibration [200] 0 1 0 1).1,
    (get_waveform_rows_calibration [200] 0 1 0 1).2 0 (by decide)⟩

/-- C4: get_preamble decodes every enum field of a well-formed 24-field
preamble to its documented symbolic name (in particular format code 1 maps
to BYTE), fails on any comma-split input with fewer than 24 fields, and
fails whenever any of the six enum fields does not decode to a known code —
never producing a default or guessed value. -/
theorem get_preamble_enum_decoding :
    (∀ fields : List String, fields.length < 24 →
        get_preamble_fields fields = none)
    ∧ (∀ s : String, (s.splitOn ",").length < 24 → get_preamble s = none)
    ∧ (∀ f0 f1 f2 f3 f4 f5 f6 f7 f8 f9 f10 f11 f12 f13 f14 f15 f16 f17 f18
          f19 f20 f21 f22 f23 n0 n1 n10 n18 n20 n21 : String,
        parse_enum wav_form_dict f0 = some n0 →
        parse_enum acq_type_dict f1 = some n1 →
        parse_enum coupling_dict f10 = some n10 →
        parse_enum acq_mode_dict f18 = some n18 →
        parse_enum units_dict f20 = some n20 →
        parse_enum units_dict f21 = some n21 →
        get_preamble_fields [f0, f1, f2, f3, f4, f5, f6, f7, f8, f9, f10,
            f11, f12, f13, f14, f15, f16, f17, f18, f19, f20, f21, f22, f23]
          = some { wav_form := n0, acq_type := n1, wfmpts := f2,
                   avgcnt := f3, x_increment := f4, x_origin := f5,
                   x_reference := f6, y_increment := f7, y_origin := f8,
                   y_reference := f9, coupling := n10,
                   x_display_range := f11, x_display_origin := f12,
                   y_display_range := f13, y_display_origin := f14,
                   date := f15, time := f16, frame_model := f17,
                   acq_mode := n18, completion := f19, x_units := n20,
                   y_units := n21, max_bw_limit := f22,
                   min_bw_limit := f23 })
    ∧ (∀ f0 f1 f2 f3 f4 f5 f6 f7 f8 f9 f10 f11 f12 f13 f14 f15 f16 f17 f18
          f19 f20 f21 f22 f23 : String,
        (parse_enum wav_form_dict f0 = none ∨
         parse_enum acq_type_dict f1 = none ∨
         parse_enum coupling_dict f10 = none ∨
         parse_enum acq_mode_dict f18 = none ∨
         parse_enum units_dict f20 = none ∨
         parse_enum units_dict f21 = none) →
        get_preamble_fields [f0, f1, f2, f3, f4, f5, f6, f7, f8, f9, f10,
            f11, f12, f13, f14, f15, f16, f17, f18, f19, f20, f21, f22, f23]
          = none)
    ∧ parse_enum wav_form_dict "1" = some "BYTE" := by
  have h24 : ∀ fields : List String, fields.length < 24 →
      get_preamble_fields fields = none := by
    intro fields h
    rw [get_preamble_fields.eq_def]
    split
    · simp_all
    · rfl
  refine ⟨h24, fun s hs => h24 _ hs, ?_, ?_, by decide⟩
  · intro f0 f1 f2 f3 f4 f5 f6 f7 f8 f9 f10 f11 f12 f13 f14 f15 f16 f17 f18
      f19 f20 f21 f22 f23 n0 n1 n10 n18 n20 n21 h0 h1 h10 h18 h20 h21
    show decode_preamble f0 f1 f2 f3 f4 f5 f6 f7 f8 f9 f10 f11 f12 f13 f14
        f15 f16 f17 f18 f19 f20 f21 f22 f23 = _
    simp [decode_preamble, h0, h1, h10, h18, h20, h21]
  · intro f0 f1 f2 f3 f4 f5 f6 f7 f8 f9 f10 f11 f12 f13 f14 f15 f16 f17 f18
      f19 f20 f21 f22 f23 hbad
    show decode_preamble f0 f1 f2 f3 f4 f5 f6 f7 f8 f9 f10 f11 f12 f13 f14
        f15 f16 f17 f18 f19 f20 f21 f22 f23 = none
    rcases hbad with h | h | h | h | h | h <;>
      cases hw : parse_enum wav_form_dict f0 <;>
      cases hat : parse_enum acq_type_dict f1 <;>
      cases hcp : parse_enum coupling_dict f10 <;>
      cases ham : parse_enum acq_mode_dict f18 <;>
      cases hxu : parse_enum units_dict f20 <;>
      simp_all [decode_preamble]

/-- Evaluation of the C4 theorem on concrete field lists: a short list fails,
a well-formed one decodes every enum field to its documented name, and an
out-of-range coupling code fails. -/
theorem get_preamble_enum_decoding_witness :
    get_preamble_fields ["1", "2", "x"] = none
    ∧ get_preamble_fields ["1", "1", "32000", "1", "1e-6", "0", "0", "0.01",
        "0", "0", "1", "2e-3", "0", "1", "0", "01 JAN 2024", "12:00:00",
        "DSO90254A", "0", "100", "2", "1", "0", "0"]
      = some { wav_form := "BYTE", acq_type := "RAW", wfmpts := "32000",
               avgcnt := "1", x_increment := "1e-6", x_origin := "0",
               x_reference := "0", y_increment := "0.01", y_origin := "0",
               y_reference := "0", coupling := "DC",
               x_display_range := "2e-3", x_display_origin := "0",
               y_display_range := "1", y_display_origin := "0",
               date := "01 JAN 2024", time := "12:00:00",
               frame_model := "DSO90254A", acq_mode := "RTIMe",
               completion := "100", x_units := "SECOND", y_units := "VOLT",
               max_bw_limit := "0", min_bw_limit := "0" }
    ∧ get_preamble_fields ["1", "1", "32000", "1", "1e-6", "0", "0", "0.01",
        "0", "0", "9", "2e-3", "0", "1", "0", "01 JAN 2024", "12:00:00",
        "DSO90254A", "0", "100", "2", "1", "0", "0"] = none := by
  refine ⟨get_preamble_enum_decoding.1 _ (by decide), ?_, ?_⟩
  · exact get_preamble_enum_decoding.2.2.1 "1" "1" "32000" "1" "1e-6" "0" "0"
      "0.01" "0" "0" "1" "2e-3" "0" "1" "0" "01 JAN 2024" "12:00:00"
      "DSO90254A" "0" "100" "2" "1" "0" "0" "BYTE" "RAW" "DC" "RTIMe"
      "SECOND" "VOLT" (by decide) (by decide) (by decide) (by decide)
      (by decide) (by decide)
  · exact get_preamble_enum_decoding.2.2.2.1 "1" "1" "32000" "1" "1e-6" "0"
      "0" "0.01" "0" "0" "9" "2e-3" "0" "1" "0" "01 JAN 2024" "12:00:00"
      "DSO90254A" "0" "100" "2" "1" "0" "0"
      (Or.inr (Or.inr (Or.inl (by decide))))

/-- C5: is_moving of a ready stage with two successful position samples
reports no motion exactly when the samples differ by at most the threshold;
in particular a stage whose scripted positions are all identical never
reports motion for any nonnegative threshold (such as the default 0.0001).
-/
theorem is_moving_threshold_spec :
    (∀ (s : PIStage) (thr a b : ℚ), s.ready = true →
        s.wrapper.trace s.wrapper.k = some a →
        s.wrapper.trace (s.wrapper.k + 1) = some b →
        ((s.is_moving thr).1 = false ↔ |b - a| ≤ thr))
    ∧ (∀ (s : PIStage) (thr c : ℚ), (∀ n, s.wrapper.trace n = some c) →
        0 ≤ thr → (s.is_moving thr).1 = false) := by
  constructor
  · intro s thr a b hr h1 h2
    simp [PIStage.is_moving, MMC_Wrapper.getPos, hr, h1, h2, not_lt]
  · intro s thr c htr hthr
    cases hr : s.ready
    · simp [PIStage.is_moving, hr]
    · simp [PIStage.is_moving, MMC_Wrapper.getPos, hr, htr, sub_self,
        abs_zero, not_lt, hthr]

/-- Evaluation of the C5 theorem on a stage whose scripted position is
constantly 5, with the default threshold. -/
theorem is_moving_threshold_spec_witness :
    ((((scriptedStage fun _ => some 5).is_moving default_threshold).1 = false)
        ↔ |(5 : ℚ) - 5| ≤ default_threshold)
    ∧ ((scriptedStage fun _ => some 5).is_moving default_threshold).1
        = false :=
  ⟨is_moving_threshold_spec.1 _ _ 5 5 rfl rfl rfl,
   is_moving_threshold_spec.2 _ _ 5 (fun _ => rfl)
     (by norm_num [default_threshold])⟩

/-- C2: for a ready stage with min ≤ max bounds whose device, once the move
is commanded, settles at the commanded target, move reads the current
position p, commands exactly the clamped absolute target
max (min (p + d) bounds.max) bounds.min to the active axis, and returns that
clamped target, which lies within the bounds. -/
theorem move_clamps_and_returns_target (s : PIStage) (d p : ℚ) (fuel : ℕ)
    (hr : s.ready = true) (hb : s.bounds.1 ≤ s.bounds.2)
    (hp : s.wrapper.trace s.wrapper.k = some p)
    (hsettle : ∀ n, s.wrapper.k < n → s.wrapper.trace n =
        some (max (min (p + d) s.bounds.2) s.bounds.1))
    (hfuel : 0 < fuel) :
    ∃ s1 : PIStage,
      s.move d fuel
        = some (some (max (min (p + d) s.bounds.2) s.bounds.1), s1)
      ∧ s1.wrapper.moveCmds = s.wrapper.moveCmds
          ++ [(s.axis, max (min (p + d) s.bounds.2) s.bounds.1)]
      ∧ s.bounds.1 ≤ max (min (p + d) s.bounds.2) s.bounds.1
      ∧ max (min (p + d) s.bounds.2) s.bounds.1 ≤ s.bounds.2 := by
  obtain ⟨f, rfl⟩ : ∃ f, fuel = f + 1 := ⟨fuel - 1, by omega⟩
  have h1 := hsettle (s.wrapper.k + 1) (by omega)
  have h2 := hsettle (s.wrapper.k + 2) (by omega)
  have h3 := hsettle (s.wrapper.k + 3) (by omega)
  have hdt : ¬ (default_threshold < 0) := by norm_num [default_threshold]
  simp [PIStage.move, MMC_Wrapper.getPos, MMC_Wrapper.moveAbs, hr, hp,
    settle_loop, PIStage.is_moving, h1, h2, h3, hdt, hb, sup_le_iff,
    inf_le_right, le_sup_right]

/-- Evaluation of the C2 theorem: from position 1 a relative move of 2
inside bounds [0, 25] commands and returns the clamped target 3. -/
theorem move_clamps_and_returns_target_witness :
    ∃ s1 : PIStage,
      (scriptedStage fun n => if n = 0 then some 1 else some 3).move 2 1
        = some (some (max (min ((1 : ℚ) + 2) 25) 0), s1)
      ∧ s1.wrapper.moveCmds
          = [] ++ [((1 : ℤ), max (min ((1 : ℚ) + 2) 25) 0)]
      ∧ (0 : ℚ) ≤ max (min ((1 : ℚ) + 2) 25) 0
      ∧ max (min ((1 : ℚ) + 2) 25) 0 ≤ 25 := by
  exact move_clamps_and_returns_target
    (scriptedStage fun n => if n = 0 then some 1 else some 3) 2 1 1 rfl
    (by norm_num [scriptedStage])
    rfl
    (fun n hn => by
      have hne : ¬ n = 0 := by omega
      simp only [scriptedStage, if_neg hne]
      norm_num)
    (by omega)

/-- Helper: on a ready stage whose scripted positions keep changing by more
than the default threshold, the settle-polling loop consumes all of its
fuel, whatever the fuel is. -/
theorem settle_loop_exhausts_fuel (f : ℕ → ℚ)
    (hdiv : ∀ n, |f (n + 1) - f n| > default_threshold) :
    ∀ (fuel : ℕ) (s : PIStage), s.ready = true →
      (∀ n, s.wrapper.trace n = some (f n)) → settle_loop fuel s = none := by
  intro fuel
  induction fuel with
  | zero => intro s _ _; rfl
  | succ m ih =>
    intro s hr htr
    have h1 := htr s.wrapper.k
    have h2 := htr (s.wrapper.k + 1)
    have hgt : decide
        (|f (s.wrapper.k + 1) - f s.wrapper.k| > default_threshold)
          = true := decide_eq_true (hdiv s.wrapper.k)
    simp only [settle_loop, PIStage.is_moving, MMC_Wrapper.getPos, hr, h1,
      h2, hgt, Bool.true_eq_false, if_false]
    exact ih _ rfl htr

/-- C9: the settle-polling loop used by move and move_home has no timeout
or maximum attempt count: on a ready stage whose scripted position stream
changes by more than the threshold between every pair of successive samples,
the loop never terminates — it exhausts any amount of fuel, and so do the
move and move_home calls built on it. -/
theorem settle_polling_never_times_out (s : PIStage) (f : ℕ → ℚ) (d : ℚ)
    (fuel : ℕ) (hr : s.ready = true)
    (htr : ∀ n, s.wrapper.trace n = some (f n))
    (hdiv : ∀ n, |f (n + 1) - f n| > default_threshold) :
    settle_loop fuel s = none ∧ s.move d fuel = none
      ∧ s.move_home fuel = none := by
  refine ⟨settle_loop_exhausts_fuel f hdiv fuel s hr htr, ?_, ?_⟩
  · simp [PIStage.move, MMC_Wrapper.getPos, MMC_Wrapper.moveAbs, hr,
      htr s.wrapper.k, settle_loop_exhausts_fuel f hdiv, htr]
  · simp [PIStage.move_home, MMC_Wrapper.find_home, hr,
      settle_loop_exhausts_fuel f hdiv, htr]

/-- Evaluation of the C9 theorem on the scripted position stream 0, 1, 2,
...: successive samples always differ by 1, and the loop exhausts fuel 3. -/
theorem settle_polling_never_times_out_witness :
    settle_loop 3 (scriptedStage fun n => some (n : ℚ)) = none
    ∧ (scriptedStage fun n => some (n : ℚ)).move 1 3 = none
    ∧ (scriptedStage fun n => some (n : ℚ)).move_home 3 = none := by
  exact settle_polling_never_times_out _ (fun n => (n : ℚ)) 1 3 rfl
    (fun n => rfl)
    (fun n => by
      have h : ((n + 1 : ℕ) : ℚ) - (n : ℚ) = 1 := by push_cast; ring
      rw [h]
      norm_num [default_threshold])

/-- C10: the stage operations catch failures internally and never propagate
an exception: with the next getPos call raising, is_moving returns False,
move returns no position, move_home still returns normally, and stop_motion
and close return normally even when their wrapper calls raise, leaving the
state unchanged — every outcome is an ordinary return value. -/
theorem stage_ops_no_exception_escape (s : PIStage) (thr d : ℚ) (fuel : ℕ)
    (hr : s.ready = true)
    (hfail : s.wrapper.trace s.wrapper.k = none) (hfuel : 0 < fuel) :
    (s.is_moving thr).1 = false
    ∧ (∃ s1, s.move d fuel = some (none, s1))
    ∧ (∃ s2, s.move_home fuel = some s2)
    ∧ s.stop_motion true = s
    ∧ s.close true = s := by
  obtain ⟨m, rfl⟩ : ∃ m, fuel = m + 1 := ⟨fuel - 1, by omega⟩
  refine ⟨?_, ?_, ?_, ?_, ?_⟩
  · simp [PIStage.is_moving, MMC_Wrapper.getPos, hr, hfail]
  · simp [PIStage.move, MMC_Wrapper.getPos, hr, hfail]
  · cases h2 : s.wrapper.trace (s.wrapper.k + 1) with
    | none =>
      simp [PIStage.move_home, MMC_Wrapper.find_home, settle_loop,
        PIStage.is_moving, MMC_Wrapper.getPos, MMC_Wrapper.sendRawCommand,
        hr, hfail, h2]
    | some q =>
      simp [PIStage.move_home, MMC_Wrapper.find_home, settle_loop,
        PIStage.is_moving, MMC_Wrapper.getPos, MMC_Wrapper.sendRawCommand,
        hr, hfail, h2]
  · simp [PIStage.stop_motion, hr]
  · simp [PIStage.close, hr]

/-- Evaluation of the C10 theorem on a stage whose transport always raises.
-/
theorem stage_ops_no_exception_escape_witness :
    ((scriptedStage fun _ => none).is_moving 0).1 = false
    ∧ (∃ s1, (scriptedStage fun _ => none).move 1 1 = some (none, s1))
    ∧ (∃ s2, (scriptedStage fun _ => none).move_home 1 = some s2)
    ∧ (scriptedStage fun _ => none).stop_motion true
        = (scriptedStage fun _ => none)
    ∧ (scriptedStage fun _ => none).close true
        = (scriptedStage fun _ => none) := by
  exact stage_ops_no_exception_escape (scriptedStage fun _ => none) 0 1 1
    rfl rfl (by omega)

/-- C7: single_acquisition performs the manual set_setup configuration
(channel scale and offset, timebase, acquire mode) exactly when load_setup
is false, and in every execution the waveform point-count command and the
single-shot digitize command come after everything else, in that order,
with digitize last. -/
theorem single_acquisition_config_structure (channel : String)
    (autoscale : Bool) (trigger_mode trigger_level : String)
    (saveSetupFlag loadSetupFlag : Bool) (setup_name : String)
    (scale offset : ℚ) (time_scale : String) (time_position : ℚ)
    (acquire_mode : String) (waveform_points : ℕ) :
    ((∃ l₁ l₂, single_acquisition_actions channel autoscale trigger_mode
          trigger_level saveSetupFlag loadSetupFlag setup_name scale offset
          time_scale time_position acquire_mode waveform_points
        = l₁ ++ set_setup_actions channel scale offset time_scale
            time_position acquire_mode ++ l₂)
      ↔ loadSetupFlag = false)
    ∧ ∃ pre, single_acquisition_actions channel autoscale trigger_mode
          trigger_level saveSetupFlag loadSetupFlag setup_name scale offset
          time_scale time_position acquire_mode waveform_points
        = pre ++ [ScopeAction.setAcqPoints waveform_points,
                  ScopeAction.digitizeCmd] := by
  constructor
  · constructor
    · intro h
      cases hld : loadSetupFlag
      · rfl
      · exfalso
        rcases h with ⟨l₁, l₂, hl⟩
        rw [hld] at hl
        have hmem : ScopeAction.setChanScale channel scale
            ∈ single_acquisition_actions channel autoscale trigger_mode
                trigger_level saveSetupFlag true setup_name scale offset
                time_scale time_position acquire_mode waveform_points := by
          rw [hl]
          simp [set_setup_actions]
        cases autoscale <;>
          rcases eq_or_ne trigger_mode "EDGE" with htm | htm <;>
          cases saveSetupFlag <;>
          simp [single_acquisition_actions, htm] at hmem
    · intro h
      subst h
      exact ⟨[ScopeAction.setProbe channel, ScopeAction.queryProbe channel]
          ++ (if autoscale then [ScopeAction.autoscaleCmd] else [])
          ++ [ScopeAction.setTrigMode trigger_mode,
              ScopeAction.queryTrigMode]
          ++ (if trigger_mode = "EDGE" then
                [ScopeAction.setTrigEdgeSource channel,
                 ScopeAction.queryTrigEdgeSource,
                 ScopeAction.setTrigLevel channel trigger_level,
                 ScopeAction.queryTrigLevel channel,
                 ScopeAction.setTrigEdgeSlope "POSitive",
                 ScopeAction.queryTrigEdgeSlope]
              else [])
          ++ (if saveSetupFlag then [ScopeAction.saveSetupFile setup_name]
              else []),
        [ScopeAction.setAcqPoints waveform_points, ScopeAction.digitizeCmd],
        by simp [single_acquisition_actions, List.append_assoc]⟩
  · exact ⟨[ScopeAction.setProbe channel, ScopeAction.queryProbe channel]
        ++ (if autoscale then [ScopeAction.autoscaleCmd] else [])
        ++ [ScopeAction.setTrigMode trigger_mode, ScopeAction.queryTrigMode]
        ++ (if trigger_mode = "EDGE" then
              [ScopeAction.setTrigEdgeSource channel,
               ScopeAction.queryTrigEdgeSource,
               ScopeAction.setTrigLevel channel trigger_level,
               ScopeAction.queryTrigLevel channel,
               ScopeAction.setTrigEdgeSlope "POSitive",
               ScopeAction.queryTrigEdgeSlope]
            else [])
        ++ (if saveSetupFlag then [ScopeAction.saveSetupFile setup_name]
            else [])
        ++ (if loadSetupFlag then [ScopeAction.loadSetupFile setup_name]
            else [])
        ++ (if loadSetupFlag then []
            else set_setup_actions channel scale offset time_scale
                   time_position acquire_mode),
      by simp [single_acquisition_actions, List.append_assoc]⟩

/-- C8 counterexample: in a concrete EDGE-triggered acquisition the slope
command issued is the hardcoded POSitive one and no NEGative slope command
is ever issued — the function takes no trigger-slope input, so the applied
slope is not a value taken from the acquisition configuration. -/
theorem edge_slope_not_from_configuration :
    ScopeAction.setTrigEdgeSlope "POSitive"
      ∈ single_acquisition_actions "channel1" true "EDGE" "330E-3" false
          false "setup.set" (1 / 10) 0 "200e-6" 0 "RTIMe" 32000
    ∧ ScopeAction.setTrigEdgeSlope "NEGative"
      ∉ single_acquisition_actions "channel1" true "EDGE" "330E-3" false
          false "setup.set" (1 / 10) 0 "200e-6" 0 "RTIMe" 32000 := by
  constructor
  · simp [single_acquisition_actions, set_setup_actions]
  · simp [single_acquisition_actions, set_setup_actions]

/-- C8 (amended): when the trigger mode is EDGE, single_acquisition applies
the trigger edge source (the channel), the configured trigger level, and a
hardcoded POSitive trigger slope (the source takes no slope configuration),
each command immediately followed by its read-back query; when the trigger
mode is not EDGE, none of these edge-trigger parameters is applied. -/
theorem single_acquisition_edge_trigger (channel : String)
    (autoscale : Bool) (trigger_mode trigger_level : String)
    (saveSetupFlag loadSetupFlag : Bool) (setup_name : String)
    (scale offset : ℚ) (time_scale : String) (time_position : ℚ)
    (acquire_mode : String) (waveform_points : ℕ) :
    (trigger_mode = "EDGE" →
      ∃ l₁ l₂, single_acquisition_actions channel autoscale trigger_mode
          trigger_level saveSetupFlag loadSetupFlag setup_name scale offset
          time_scale time_position acquire_mode waveform_points
        = l₁ ++ [ScopeAction.setTrigEdgeSource channel,
                 ScopeAction.queryTrigEdgeSource,
                 ScopeAction.setTrigLevel channel trigger_level,
                 ScopeAction.queryTrigLevel channel,
                 ScopeAction.setTrigEdgeSlope "POSitive",
                 ScopeAction.queryTrigEdgeSlope] ++ l₂)
    ∧ (trigger_mode ≠ "EDGE" →
        (∀ c, ScopeAction.setTrigEdgeSource c
          ∉ single_acquisition_actions channel autoscale trigger_mode
              trigger_level saveSetupFlag loadSetupFlag setup_name scale
              offset time_scale time_position acquire_mode waveform_points)
        ∧ (∀ c lv, ScopeAction.setTrigLevel c lv
          ∉ single_acquisition_actions channel autoscale trigger_mode
              trigger_level saveSetupFlag loadSetupFlag setup_name scale
              offset time_scale time_position acquire_mode waveform_points)
        ∧ (∀ sl, ScopeAction.setTrigEdgeSlope sl
          ∉ single_acquisition_actions channel autoscale trigger_mode
              trigger_level saveSetupFlag loadSetupFlag setup_name scale
              offset time_scale time_position acquire_mode
              waveform_points)) := by
  constructor
  · intro htm
    exact ⟨[ScopeAction.setProbe channel, ScopeAction.queryProbe channel]
        ++ (if autoscale then [ScopeAction.autoscaleCmd] else [])
        ++ [ScopeAction.setTrigMode trigger_mode, ScopeAction.queryTrigMode],
      (if saveSetupFlag then [ScopeAction.saveSetupFile setup_name] else [])
        ++ (if loadSetupFlag then [ScopeAction.loadSetupFile setup_name]
            else [])
        ++ (if loadSetupFlag then []
            else set_setup_actions channel scale offset time_scale
                   time_position acquire_mode)
        ++ [ScopeAction.setAcqPoints waveform_points,
            ScopeAction.digitizeCmd],
      by simp [single_acquisition_actions, htm, List.append_assoc]⟩
  · intro htm
    refine ⟨?_, ?_, ?_⟩
    · intro c
      cases autoscale <;> cases saveSetupFlag <;> cases loadSetupFlag <;>
        simp [single_acquisition_actions, set_setup_actions, htm]
    · intro c lv
      cases autoscale <;> cases saveSetupFlag <;> cases loadSetupFlag <;>
        simp [single_acquisition_actions, set_setup_actions, htm]
    · intro sl
      cases autoscale <;> cases saveSetupFlag <;> cases loadSetupFlag <;>
        simp [single_acquisition_actions, set_setup_actions, htm]

/-- Evaluation of the amended C8 theorem: a concrete EDGE acquisition
contains the edge source, level and POSitive-slope block, and a concrete
GLITCH acquisition issues no slope command at all. -/
theorem single_acquisition_edge_trigger_witness :
    (∃ l₁ l₂, single_acquisition_actions "channel1" true "EDGE" "330E-3"
        false false "setup.set" (1 / 10) 0 "200e-6" 0 "RTIMe" 32000
      = l₁ ++ [ScopeAction.setTrigEdgeSource "channel1",
               ScopeAction.queryTrigEdgeSource,
               ScopeAction.setTrigLevel "channel1" "330E-3",
               ScopeAction.queryTrigLevel "channel1",
               ScopeAction.setTrigEdgeSlope "POSitive",
               ScopeAction.queryTrigEdgeSlope] ++ l₂)
    ∧ (∀ sl, ScopeAction.setTrigEdgeSlope sl
        ∉ single_acquisition_actions "channel1" true "GLITCH" "330E-3"
            false false "setup.set" (1 / 10) 0 "200e-6" 0 "RTIMe" 32000) := by
  constructor
  · exact (single_acquisition_edge_trigger "channel1" true "EDGE" "330E-3"
      false false "setup.set" (1 / 10) 0 "200e-6" 0 "RTIMe" 32000).1 rfl
  · exact ((single_acquisition_edge_trigger "channel1" true "GLITCH"
      "330E-3" false false "setup.set" (1 / 10) 0 "200e-6" 0 "RTIMe"
      32000).2 (by decide)).2.2

/-- Evaluation of the C7 theorem on a concrete acquisition with
load_setup = False: the manual configuration block is present and the log
ends with the point-count and digitize commands. -/
theorem single_acquisition_config_structure_witness :
    ((∃ l₁ l₂, single_acquisition_actions "channel1" true "EDGE" "330E-3"
          false false "setup.set" (1 / 10) 0 "200e-6" 0 "RTIMe" 32000
        = l₁ ++ set_setup_actions "channel1" (1 / 10) 0 "200e-6" 0 "RTIMe"
            ++ l₂)
      ↔ false = false)
    ∧ ∃ pre, single_acquisition_actions "channel1" true "EDGE" "330E-3"
          false false "setup.set" (1 / 10) 0 "200e-6" 0 "RTIMe" 32000
        = pre ++ [ScopeAction.setAcqPoints 32000, ScopeAction.digitizeCmd] :=
  single_acquisition_config_structure "channel1" true "EDGE" "330E-3" false
    false "setup.set" (1 / 10) 0 "200e-6" 0 "RTIMe" 32000
